import Mathlib

/-!
Verification development for the traffic-scenario-builder editor.

The Python source keeps three near-duplicate editor variants; the parts the
claims touch are embedded here as pure Lean functions:

* `Fixed.get_position_at_time` — `Vehicle.get_position_at_time` from
  `vehicle_editor_fixed.py` (lines 57-104).
* `V3.get_position_at_time` — `Vehicle.get_position_at_time` from
  `vehicle_editor_v3.py` (lines 57-97), which accumulates move and pause
  durations instead of comparing against absolute arrival times.
* `update_animation` — the time-advance step of
  `VehicleEditor.update_animation` (`vehicle_editor_fixed.py` 1024-1045);
  the Python tick constant `0.033` is modelled as the rational `33/1000`.
* `export_frames` / `export_video` — the frame loop of
  `VehicleEditor.export_video` (`vehicle_editor_fixed.py` 1183-1233),
  once as the list of emitted (time, overlay-flag) pairs and once as a
  state transformer over the mutated view attributes, with an optional
  failing frame index standing for an output stream that raises.
* `WithAssets.save_project` / `WithAssets.load_project` — the serializer pair
  of `vehicle_editor_with_assets.py` (616-696).
* `remove_road` / `road_mouse_release` — the locked-road guards of
  `vehicle_editor_fixed.py` (634-656 and 165-193).
* `add_vehicle_to_scene` / `remove_vehicle` — the id-counter discipline of
  `vehicle_editor_fixed.py` (685-705, 758-775).
* `fit_view_to_roads` — the bounds computation of
  `vehicle_editor_fixed.py` (1104-1134).

Coordinates and times are modelled as rationals; all arithmetic in the
claims is exact at the inputs considered.
-/

namespace TrafficScenario

/-- A trajectory waypoint: position, arrival time (seconds) and pause
duration (seconds), mirroring class `TrajectoryPoint` of
`vehicle_editor_fixed.py` / `vehicle_editor_v3.py`. -/
structure TrajectoryPoint where
  x : ℚ
  y : ℚ
  time : ℚ
  pause_duration : ℚ
  deriving DecidableEq, Repr

/-- `departure_time` of a waypoint, as computed in the source:
arrival time plus pause duration. -/
def departure (p : TrajectoryPoint) : ℚ :=
  p.time + p.pause_duration

namespace Fixed

/-- Loop body of `Vehicle.get_position_at_time` (`vehicle_editor_fixed.py`)
for indices `i ≥ 1`: `p` is `trajectory[i]`, the list argument is the tail
`trajectory[i+1:]`.  The iteration checks the (closed) pause window
`arrival_time <= t <= departure_time`, then the travel window
`departure_time <= t <= next_point.time` with the zero-duration guard, and
otherwise continues; falling off the loop returns the last point. -/
def posLoop (p : TrajectoryPoint) : List TrajectoryPoint → ℚ → ℚ × ℚ
  | [], _ => (p.x, p.y)
  | q :: rest, t =>
    if p.time ≤ t ∧ t ≤ departure p then (p.x, p.y)
    else if departure p ≤ t ∧ t ≤ q.time then
      if q.time - departure p = 0 then (p.x, p.y)
      else
        let frac := (t - departure p) / (q.time - departure p)
        (p.x + (q.x - p.x) * frac, p.y + (q.y - p.y) * frac)
    else posLoop q rest t

/-- `Vehicle.get_position_at_time` of `vehicle_editor_fixed.py` (57-104):
empty trajectory yields the fixed default `(100, 100)`; a single waypoint is
static; `t <= 0` clamps to the first waypoint; the `i = 0` loop iteration
checks `t <= time + pause` and then the travel window `t <= trajectory[1].time`;
later iterations are `posLoop`. -/
def get_position_at_time (trajectory : List TrajectoryPoint) (t : ℚ) : ℚ × ℚ :=
  match trajectory with
  | [] => (100, 100)
  | [p] => (p.x, p.y)
  | p :: q :: rest =>
    if t ≤ 0 then (p.x, p.y)
    else if t ≤ departure p then (p.x, p.y)
    else if t ≤ q.time then
      if q.time - departure p = 0 then (p.x, p.y)
      else
        let frac := (t - departure p) / (q.time - departure p)
        (p.x + (q.x - p.x) * frac, p.y + (q.y - p.y) * frac)
    else posLoop q rest t

end Fixed

namespace V3

/-- Loop body of `Vehicle.get_position_at_time` (`vehicle_editor_v3.py`):
`acc` is the accumulated time, `p` the current point, the list the remaining
points.  Each step checks the half-open travel window
`acc <= t < acc + move_time` (with linear interpolation when `move_time > 0`),
then the half-open pause window, then accumulates both durations; falling off
the loop returns the last point. -/
def posLoopAcc (acc : ℚ) (p : TrajectoryPoint) : List TrajectoryPoint → ℚ → ℚ × ℚ
  | [], _ => (p.x, p.y)
  | q :: rest, t =>
    let move := q.time - p.time
    if acc ≤ t ∧ t < acc + move then
      if 0 < move then
        let frac := (t - acc) / move
        (p.x + (q.x - p.x) * frac, p.y + (q.y - p.y) * frac)
      else (p.x, p.y)
    else if acc + move ≤ t ∧ t < acc + move + p.pause_duration then (p.x, p.y)
    else posLoopAcc (acc + move + p.pause_duration) q rest t

/-- `Vehicle.get_position_at_time` of `vehicle_editor_v3.py` (57-97). -/
def get_position_at_time (trajectory : List TrajectoryPoint) (t : ℚ) : ℚ × ℚ :=
  match trajectory with
  | [] => (100, 100)
  | [p] => (p.x, p.y)
  | p :: q :: rest =>
    if t ≤ 0 then (p.x, p.y) else posLoopAcc 0 p (q :: rest) t

end V3

/-- `trajectory[-1].time`: arrival time of the last waypoint (0 for an empty
trajectory; the callers only use it on non-empty trajectories). -/
def trajectoryLastTime : List TrajectoryPoint → ℚ
  | [] => 0
  | [p] => p.time
  | _ :: q :: rest => trajectoryLastTime (q :: rest)

/-- The `max_t` scan of `VehicleEditor.update_animation`
(`vehicle_editor_fixed.py` 1028-1031): fold over the vehicles, taking the
maximum of `trajectory[-1].time` over vehicles whose trajectory is
non-empty, starting from 0. -/
def maxTrajectoryTime (vehicles : List (List TrajectoryPoint)) : ℚ :=
  vehicles.foldl
    (fun acc traj => if traj.isEmpty then acc else max acc (trajectoryLastTime traj)) 0

/-- The same maximum written specification-style: the largest final-waypoint
arrival time over the vehicles that have at least one waypoint. -/
def animatedMaxTime (vehicles : List (List TrajectoryPoint)) : ℚ :=
  ((vehicles.filter fun traj => !traj.isEmpty).map trajectoryLastTime).foldl max 0

/-- One tick of `VehicleEditor.update_animation`
(`vehicle_editor_fixed.py` 1024-1045), as a pure step on
`(current_time, max_time)`: advance by `0.033` (modelled exactly as
`33/1000`), recompute `max_time` from the trajectories when the scanned
maximum is positive, and wrap `current_time` to 0 once it exceeds `max_time`.
Returns the new `(current_time, max_time)`. -/
def update_animation (vehicles : List (List TrajectoryPoint))
    (current_time max_time : ℚ) : ℚ × ℚ :=
  let ct := current_time + 33 / 1000
  let mt := if 0 < maxTrajectoryTime vehicles then maxTrajectoryTime vehicles else max_time
  (if mt < ct then 0 else ct, mt)

/-- Denominator of the slider normalisation in `update_animation`
(line 1039): `max(self.max_time, 1)` — the only place the 1.0 floor is
applied. -/
def slider_denominator (max_time : ℚ) : ℚ :=
  max max_time 1

/-- `total_frames = int(duration * fps)` from `VehicleEditor.export_video`
(`vehicle_editor_fixed.py` 1204); `int` truncation of a non-negative value is
the floor, and a non-positive frame count makes the loop empty. -/
def export_frame_count (fps : ℕ) (duration : ℚ) : ℕ :=
  (⌊duration * (fps : ℚ)⌋).toNat

/-- The sequence of frames emitted by the export loop
(`vehicle_editor_fixed.py` 1204-1221): frame `i` is rendered at
`current_time = i / fps`, and `show_trajectory` is `False` for the whole
loop (cleared at line 1202 before the first frame). Each element is the
(render time, overlay flag) of one emitted frame. -/
def export_frames (fps : ℕ) (duration : ℚ) : List (ℚ × Bool) :=
  (List.range (export_frame_count fps duration)).map
    fun i : ℕ => ((i : ℚ) / (fps : ℚ), false)

/-- The interactive-view attributes mutated by `export_video`:
`self.current_time` and `self.show_trajectory`.  The entity collections
(roads, vehicles, cameras, labels) are never written by the export loop. -/
structure ViewState where
  current_time : ℚ
  show_trajectory : Bool
  deriving DecidableEq, Repr

/-- The frame-write loop of `export_video`, with an output stream that
raises when asked to write frame `failAt` (there is no handler in the
source, so the raise aborts the whole method with the state as mutated so
far).  Arguments: failing index, fps, current frame index, remaining frame
count, state.  Returns (completed?, state). -/
def exportWriteLoop (failAt : Option ℕ) (fps : ℕ) :
    ℕ → ℕ → ViewState → Bool × ViewState
  | _, 0, v => (true, v)
  | i, n + 1, v =>
    let v2 : ViewState := { v with current_time := (i : ℚ) / (fps : ℚ) }
    if failAt = some i then (false, v2)
    else exportWriteLoop failAt fps (i + 1) n v2

/-- `VehicleEditor.export_video` (`vehicle_editor_fixed.py` 1183-1233) as a
transformer of the view state: clear `show_trajectory`, run the frame loop,
and only after the loop completes restore `show_trajectory` and set
`current_time` to 0.  A write failure (modelled by `failAt`) propagates with
whatever state the method had mutated, since the source has no
`try`/`finally`. -/
def export_video (failAt : Option ℕ) (fps total_frames : ℕ)
    (v : ViewState) : Bool × ViewState :=
  let v1 : ViewState := { v with show_trajectory := false }
  match exportWriteLoop failAt fps 0 total_frames v1 with
  | (true, v2) => (true, { v2 with show_trajectory := v.show_trajectory, current_time := 0 })
  | (false, v2) => (false, v2)

namespace WithAssets

/-- Persisted vehicle entry written by `save_project` of
`vehicle_editor_with_assets.py`: id, a constant pixmap index 0, and the
trajectory saved as bare `(x, y, time)` triples. -/
structure SavedVehicle where
  id : ℕ
  pixmap_index : ℕ
  trajectory : List (ℚ × ℚ × ℚ)
  deriving DecidableEq, Repr

/-- Persisted camera entry: id, constant pixmap index 0, position. -/
structure SavedCamera where
  id : ℕ
  pixmap_index : ℕ
  x : ℚ
  y : ℚ
  deriving DecidableEq, Repr

/-- Persisted text label entry. -/
structure SavedLabel where
  text : String
  x : ℚ
  y : ℚ
  font_size : ℕ
  color : String
  deriving DecidableEq, Repr

/-- In-memory vehicle of `vehicle_editor_with_assets.py`, restricted to the
fields the serializer touches. -/
structure MemVehicle where
  id : ℕ
  trajectory : List (ℚ × ℚ × ℚ)
  deriving DecidableEq, Repr

/-- In-memory camera, restricted to the serialized fields. -/
structure MemCamera where
  id : ℕ
  x : ℚ
  y : ℚ
  deriving DecidableEq, Repr

/-- The entity store of `vehicle_editor_with_assets.py`: the three entity
collections plus `max_time`, which are exactly the attributes `save_project`
reads and `load_project` writes. -/
structure Store where
  vehicles : List MemVehicle
  cameras : List MemCamera
  text_labels : List SavedLabel
  max_time : ℚ
  deriving DecidableEq, Repr

/-- The persisted document built by `save_project`
(`vehicle_editor_with_assets.py` 616-659). -/
structure Document where
  vehicles : List SavedVehicle
  cameras : List SavedCamera
  text_labels : List SavedLabel
  max_time : ℚ
  deriving DecidableEq, Repr

/-- `save_project` (`vehicle_editor_with_assets.py` 616-659): serialize the
store into the document, with `pixmap_index` hardcoded to 0. -/
def save_project (s : Store) : Document :=
  { vehicles := s.vehicles.map fun v => ⟨v.id, 0, v.trajectory⟩
    cameras := s.cameras.map fun c => ⟨c.id, 0, c.x, c.y⟩
    text_labels := s.text_labels
    max_time := s.max_time }

/-- `load_project` (`vehicle_editor_with_assets.py` 661-696): clear the
vehicle, camera and label collections, then read back only `max_time`; the
entity-restoring part of the loader is an unimplemented
`TODO: 实现完整的加载逻辑` in the source. -/
def load_project (s : Store) (d : Document) : Store :=
  { s with vehicles := [], cameras := [], text_labels := [], max_time := d.max_time }

end WithAssets

/-- Road entity of `vehicle_editor_fixed.py`: id, top-left position and the
`locked` flag (the pixmap is irrelevant to the mutation guards). -/
structure Road where
  id : ℕ
  x : ℚ
  y : ℚ
  locked : Bool
  deriving DecidableEq, Repr

/-- Observable outcome of a road mutation attempt, mirroring the distinct
status/dialog messages of the source. -/
inductive RoadOpResult
  | noSelection
  | lockedError
  | removed
  | moved
  | cancelled
  deriving DecidableEq, Repr

/-- `VehicleEditor.remove_road` (`vehicle_editor_fixed.py` 634-656): no
selection is reported; a locked selected road raises the locked warning
before the confirmation dialog and leaves `self.roads` untouched; otherwise
the user's confirmation decides whether the road is removed. -/
def remove_road (roads : List Road) (selected : Option Road)
    (confirmed : Bool) : List Road × RoadOpResult :=
  match selected with
  | none => (roads, .noSelection)
  | some r =>
    if r.locked then (roads, .lockedError)
    else if confirmed then (roads.erase r, .removed)
    else (roads, .cancelled)

/-- The road branch of `DraggablePixmapItem.mouseReleaseEvent`
(`vehicle_editor_fixed.py` 183-191): an unlocked road takes the drop
position; a locked road keeps its stored `(x, y)` (the visual item is
snapped back) and the locked status message is shown. -/
def road_mouse_release (r : Road) (nx ny : ℚ) : Road × RoadOpResult :=
  if !r.locked then ({ r with x := nx, y := ny }, .moved)
  else (r, .lockedError)

/-- The id-relevant state of the vehicle collection:
`self.next_vehicle_id` and the ids of the live vehicles in store order. -/
structure VehicleIds where
  next_vehicle_id : ℕ
  vehicles : List ℕ
  deriving DecidableEq, Repr

/-- `VehicleEditor.add_vehicle_to_scene` (`vehicle_editor_fixed.py`
685-705), restricted to id assignment: the new vehicle gets
`next_vehicle_id`, which is then incremented; the vehicle is appended. -/
def add_vehicle_to_scene (s : VehicleIds) : VehicleIds :=
  { next_vehicle_id := s.next_vehicle_id + 1
    vehicles := s.vehicles ++ [s.next_vehicle_id] }

/-- `VehicleEditor.remove_vehicle` (`vehicle_editor_fixed.py` 758-775):
the selected vehicle is removed from the list; the id counter is not
touched. -/
def remove_vehicle (s : VehicleIds) (i : ℕ) : VehicleIds :=
  { next_vehicle_id := s.next_vehicle_id, vehicles := s.vehicles.erase i }

/-- An editing step on the vehicle collection: an add, or a removal of the
vehicle with a given id. -/
inductive EditorOp
  | add
  | remove (i : ℕ)
  deriving DecidableEq, Repr

/-- Apply one editing step. -/
def applyOp (s : VehicleIds) : EditorOp → VehicleIds
  | .add => add_vehicle_to_scene s
  | .remove i => remove_vehicle s i

/-- Run a sequence of editing steps. -/
def runOps (s : VehicleIds) : List EditorOp → VehicleIds
  | [] => s
  | op :: ops => runOps (applyOp s op) ops

/-- The ids assigned at creation during a run (in order), including ids of
vehicles that are later removed. -/
def createdIds (s : VehicleIds) : List EditorOp → List ℕ
  | [] => []
  | .add :: ops => s.next_vehicle_id :: createdIds (applyOp s .add) ops
  | .remove i :: ops => createdIds (applyOp s (.remove i)) ops

/-- The editor's initial counter state (`vehicle_editor_fixed.py` 265):
`next_vehicle_id = 0`, no vehicles. -/
def initialEditor : VehicleIds :=
  { next_vehicle_id := 0, vehicles := [] }

namespace V3

/-- `VehicleEditor.add_vehicle_to_scene` of `vehicle_editor_v3.py`
(633-655), restricted to id assignment: this variant has no id counter —
line 647 assigns `vehicle_id = len(self.vehicles)` and appends the new
vehicle.  The state is the list of live vehicle ids in store order. -/
def add_vehicle_to_scene (vehicles : List ℕ) : List ℕ :=
  vehicles ++ [vehicles.length]

/-- `VehicleEditor.remove_vehicle` of `vehicle_editor_v3.py` (712-730):
the selected vehicle is removed from the list; nothing else changes. -/
def remove_vehicle (vehicles : List ℕ) (i : ℕ) : List ℕ :=
  vehicles.erase i

end V3

/-- Axis-aligned rectangle of a placed road: top-left position and pixmap
size, the data `fit_view_to_roads` reads. -/
structure RoadRect where
  x : ℚ
  y : ℚ
  w : ℚ
  h : ℚ
  deriving DecidableEq, Repr

/-- `VehicleEditor.fit_view_to_roads` (`vehicle_editor_fixed.py`
1104-1134): with no roads nothing happens; otherwise the union of the road
rectangles is computed, a fixed margin of 100 units is added on all sides,
and the scene rectangle `(min_x - margin, min_y - margin, total_width,
total_height)` is returned. -/
def fit_view_to_roads (roads : List RoadRect) : Option (ℚ × ℚ × ℚ × ℚ) :=
  match roads with
  | [] => none
  | r :: rs =>
    let min_x := rs.foldl (fun a q => min a q.x) r.x
    let min_y := rs.foldl (fun a q => min a q.y) r.y
    let max_x := rs.foldl (fun a q => max a (q.x + q.w)) (r.x + r.w)
    let max_y := rs.foldl (fun a q => max a (q.y + q.h)) (r.y + r.h)
    let margin : ℚ := 100
    let total_width := max_x - min_x + margin * 2
    let total_height := max_y - min_y + margin * 2
    some (min_x - margin, min_y - margin, total_width, total_height)

/-- The spec scenario trajectory: waypoints `(0,0)` at `t=0` with no pause,
`(100,0)` at `t=2` with pause 1, `(100,100)` at `t=4` with no pause. -/
def scenarioTrajectory : List TrajectoryPoint :=
  [⟨0, 0, 0, 0⟩, ⟨100, 0, 2, 1⟩, ⟨100, 100, 4, 0⟩]

/-- A store of `vehicle_editor_with_assets.py` holding one vehicle (id 0,
one trajectory point `(1, 2)` at time 0) and nothing else. -/
def c6Store : WithAssets.Store :=
  { vehicles := [⟨0, [(1, 2, 0)]⟩], cameras := [], text_labels := [], max_time := 10 }

end TrafficScenario

namespace TrafficScenario

/-- Claim C2 helper: along a schedule whose consecutive waypoints satisfy
`departure a ≤ b.time` and whose pauses are non-negative, the departure time
of the head is at most the departure time of the last waypoint. -/
theorem departure_getLastD_le (rs : List TrajectoryPoint) :
    ∀ q : TrajectoryPoint,
      List.Chain' (fun a b => departure a ≤ b.time) (q :: rs) →
      (∀ r ∈ q :: rs, 0 ≤ r.pause_duration) →
      departure q ≤ departure (rs.getLastD q) := by
  induction rs with
  | nil => intro q _ _; simp [List.getLastD]
  | cons r rs ih =>
    intro q hchain hpause
    obtain ⟨hqr, hchain2⟩ := List.chain'_cons.mp hchain
    have hpause2 : ∀ x ∈ r :: rs, 0 ≤ x.pause_duration :=
      fun x hx => hpause x (List.mem_cons_of_mem q hx)
    have h2 := ih r hchain2 hpause2
    have h3 : r.time ≤ departure r := le_add_of_nonneg_right (hpause2 r (by simp))
    rw [List.getLastD_cons]
    exact le_trans hqr (le_trans h3 h2)

/-- Claim C2 helper: once the query time is strictly past the last
waypoint's departure time, every pause and travel window test in the scan
loop of the fixed-variant interpolator fails, so the loop falls through to
the last waypoint's position. -/
theorem posLoop_after_end (rs : List TrajectoryPoint) :
    ∀ (q : TrajectoryPoint) (t : ℚ),
      List.Chain' (fun a b => departure a ≤ b.time) (q :: rs) →
      (∀ r ∈ q :: rs, 0 ≤ r.pause_duration) →
      departure (rs.getLastD q) < t →
      Fixed.posLoop q rs t = ((rs.getLastD q).x, (rs.getLastD q).y) := by
  induction rs with
  | nil => intro q t _ _ _; simp [Fixed.posLoop, List.getLastD]
  | cons r rs ih =>
    intro q t hchain hpause hlt
    rw [List.getLastD_cons] at hlt ⊢
    obtain ⟨hqr, hchain2⟩ := List.chain'_cons.mp hchain
    have hpause2 : ∀ x ∈ r :: rs, 0 ≤ x.pause_duration :=
      fun x hx => hpause x (List.mem_cons_of_mem q hx)
    have hrL : departure r ≤ departure (rs.getLastD r) := departure_getLastD_le rs r hchain2 hpause2
    have hrt : r.time ≤ departure r := le_add_of_nonneg_right (hpause2 r (by simp))
    have h1 : ¬ (q.time ≤ t ∧ t ≤ departure q) := by
      rintro ⟨-, h⟩
      linarith
    have h2 : ¬ (departure q ≤ t ∧ t ≤ r.time) := by
      rintro ⟨-, h⟩
      linarith
    simp only [Fixed.posLoop]
    rw [if_neg h1, if_neg h2]
    exact ih r t hchain2 hpause2 hlt

/-- Claim C1 (counterexample): on the spec scenario trajectory the claim's
table is wrong for both cited interpolator variants.  The fixed variant
returns `(100, 0)` at `t = 3.0` (not the claimed `(100, 50)`), because its
pause window at the second waypoint is the closed interval `[2, 3]`; the v3
variant returns `(100, 25)` at `t = 2.5` (not the claimed `(100, 0)`),
because it plays each pause after the following travel segment. -/
theorem c1_counterexample :
    Fixed.get_position_at_time scenarioTrajectory 3 = (100, 0) ∧
    ((100 : ℚ), (0 : ℚ)) ≠ ((100 : ℚ), (50 : ℚ)) ∧
    V3.get_position_at_time scenarioTrajectory (5 / 2) = (100, 25) ∧
    ((100 : ℚ), (25 : ℚ)) ≠ ((100 : ℚ), (0 : ℚ)) := by
  refine ⟨?_, ?_, ?_, ?_⟩ <;>
    norm_num [Fixed.get_position_at_time, Fixed.posLoop, V3.get_position_at_time,
      V3.posLoopAcc, departure, scenarioTrajectory, Prod.ext_iff]

/-- Claim C1 (amended): on the waypoint list
`[(0,0, t=0, pause 0), (100,0, t=2, pause 1), (100,100, t=4, pause 0)]`
the fixed-variant interpolator returns `(50,0)` at `t=1`, `(100,0)` at
`t=2.5`, `(100,0)` at `t=3` and `(100,100)` at `t=10`, while the v3 variant
returns `(50,0)`, `(100,25)`, `(100,50)` and `(100,100)` at those times. -/
theorem c1_amended :
    Fixed.get_position_at_time scenarioTrajectory 1 = (50, 0) ∧
    Fixed.get_position_at_time scenarioTrajectory (5 / 2) = (100, 0) ∧
    Fixed.get_position_at_time scenarioTrajectory 3 = (100, 0) ∧
    Fixed.get_position_at_time scenarioTrajectory 10 = (100, 100) ∧
    V3.get_position_at_time scenarioTrajectory 1 = (50, 0) ∧
    V3.get_position_at_time scenarioTrajectory (5 / 2) = (100, 25) ∧
    V3.get_position_at_time scenarioTrajectory 3 = (100, 50) ∧
    V3.get_position_at_time scenarioTrajectory 10 = (100, 100) := by
  refine ⟨?_, ?_, ?_, ?_, ?_, ?_, ?_, ?_⟩ <;>
    norm_num [Fixed.get_position_at_time, Fixed.posLoop, V3.get_position_at_time,
      V3.posLoopAcc, departure, scenarioTrajectory]

/-- Claim C2 (counterexample): the clamping property fails as stated.  For
the sorted, non-negative waypoint list `[(0,0, t=0, pause 100),
(5,5, t=1, pause 0)]`, the query `t = 1` is at least the last waypoint's
arrival plus pause, yet the fixed variant returns the first waypoint's
position `(0, 0)` (the first pause window swallows the query).  The v3
variant violates even the start clamp: on `[(0,0, t=5, pause 0),
(9,9, t=10, pause 0)]` at `t = 3 ≤ 5` it returns `(27/5, 27/5)`, not the
first waypoint's position. -/
theorem c2_counterexample :
    Fixed.get_position_at_time [⟨0, 0, 0, 100⟩, ⟨5, 5, 1, 0⟩] 1 = (0, 0) ∧
    ((0 : ℚ), (0 : ℚ)) ≠ ((5 : ℚ), (5 : ℚ)) ∧
    departure ⟨5, 5, 1, 0⟩ ≤ 1 ∧
    V3.get_position_at_time [⟨0, 0, 5, 0⟩, ⟨9, 9, 10, 0⟩] 3 = (27 / 5, 27 / 5) ∧
    ((27 / 5 : ℚ), (27 / 5 : ℚ)) ≠ ((0 : ℚ), (0 : ℚ)) ∧
    (3 : ℚ) ≤ TrajectoryPoint.time ⟨0, 0, 5, 0⟩ := by
  refine ⟨?_, ?_, ?_, ?_, ?_, ?_⟩ <;>
    norm_num [Fixed.get_position_at_time, Fixed.posLoop, V3.get_position_at_time,
      V3.posLoopAcc, departure, Prod.ext_iff]

/-- Claim C2 (amended): for the fixed-variant interpolator, on a non-empty
waypoint list with non-negative arrival times and pause durations whose
schedule is non-overlapping (each waypoint's departure time is at most the
next waypoint's arrival time): the result is the first waypoint's position
whenever `t ≤` the first arrival time, and the last waypoint's position
whenever `t` is strictly greater than the last waypoint's arrival plus
pause. -/
theorem c2_amended (p : TrajectoryPoint) (rest : List TrajectoryPoint)
    (hpause : ∀ r ∈ p :: rest, 0 ≤ r.pause_duration)
    (htime : ∀ r ∈ p :: rest, 0 ≤ r.time)
    (hsched : List.Chain' (fun a b => departure a ≤ b.time) (p :: rest)) :
    (∀ t, t ≤ p.time → Fixed.get_position_at_time (p :: rest) t = (p.x, p.y)) ∧
    (∀ t, departure (rest.getLastD p) < t →
      Fixed.get_position_at_time (p :: rest) t
        = ((rest.getLastD p).x, (rest.getLastD p).y)) := by
  cases rest with
  | nil =>
    exact ⟨fun t _ => rfl, fun t _ => rfl⟩
  | cons q rs =>
    constructor
    · intro t ht
      have hp0 : 0 ≤ p.pause_duration := hpause p (by simp)
      by_cases h0 : t ≤ 0
      · simp [Fixed.get_position_at_time, h0]
      · have hdep : t ≤ departure p := le_trans ht (le_add_of_nonneg_right hp0)
        simp only [Fixed.get_position_at_time]
        rw [if_neg h0, if_pos hdep]
    · intro t hlt
      rw [List.getLastD_cons] at hlt ⊢
      obtain ⟨hpq, hchain2⟩ := List.chain'_cons.mp hsched
      have hpause2 : ∀ x ∈ q :: rs, 0 ≤ x.pause_duration :=
        fun x hx => hpause x (List.mem_cons_of_mem p hx)
      have hqL : departure q ≤ departure (rs.getLastD q) :=
        departure_getLastD_le rs q hchain2 hpause2
      have hqt : q.time ≤ departure q := le_add_of_nonneg_right (hpause2 q (by simp))
      have hLmem : rs.getLastD q ∈ q :: rs := List.getLastD_mem_cons rs q
      have hLtime : 0 ≤ (rs.getLastD q).time := htime _ (List.mem_cons_of_mem p hLmem)
      have hLdep : (rs.getLastD q).time ≤ departure (rs.getLastD q) :=
        le_add_of_nonneg_right (hpause2 _ hLmem)
      have h0 : ¬ t ≤ 0 := by linarith
      have h1 : ¬ t ≤ departure p := by linarith
      have h2 : ¬ t ≤ q.time := by linarith
      simp only [Fixed.get_position_at_time]
      rw [if_neg h0, if_neg h1, if_neg h2]
      exact posLoop_after_end rs q t hchain2 hpause2 hlt

/-- Claim C2 (witness): the amended clamping theorem applied to the
two-waypoint schedule `[(0,0, t=0, pause 0), (100,0, t=2, pause 1)]` at
`t = -1` (start clamp) and `t = 7` (end clamp). -/
theorem c2_witness :
    Fixed.get_position_at_time [⟨0, 0, 0, 0⟩, ⟨100, 0, 2, 1⟩] (-1) = (0, 0) ∧
    Fixed.get_position_at_time [⟨0, 0, 0, 0⟩, ⟨100, 0, 2, 1⟩] 7 = (100, 0) := by
  have h := c2_amended ⟨0, 0, 0, 0⟩ [⟨100, 0, 2, 1⟩]
    (by intro r hr; rcases List.mem_cons.mp hr with rfl | hr2
        · norm_num
        · rcases List.mem_singleton.mp hr2 with rfl; norm_num)
    (by intro r hr; rcases List.mem_cons.mp hr with rfl | hr2
        · norm_num
        · rcases List.mem_singleton.mp hr2 with rfl; norm_num)
    (by simp [List.chain'_cons, departure])
  refine ⟨?_, ?_⟩
  · simpa using h.1 (-1) (by norm_num)
  · simpa [List.getLastD] using h.2 7 (by norm_num [departure, List.getLastD])

/-- Claim C3 (counterexample): for a single vehicle whose only waypoint has
arrival time 2 and pause duration 5, one animation tick from
`current_time = 3`, `max_time = 10` wraps `current_time` to 0 and sets
`max_time` to 2 — the last arrival time, with the pause ignored — whereas
the claim demands the wrap value `max (2 + 5) 1 = 7`. -/
theorem c3_counterexample :
    update_animation [[⟨0, 0, 2, 5⟩]] 3 10 = (0, 2) ∧
    (2 : ℚ) ≠ max (2 + 5) 1 := by
  constructor
  · norm_num [update_animation, maxTrajectoryTime, trajectoryLastTime]
  · rw [max_eq_left (by norm_num)]
    norm_num

/-- Claim C3 helper: the conditional fold that scans the vehicles in
`update_animation` computes the maximum final-waypoint arrival time over
the vehicles with a non-empty trajectory. -/
theorem maxTrajectoryTime_eq_animatedMaxTime (vehicles : List (List TrajectoryPoint)) :
    maxTrajectoryTime vehicles = animatedMaxTime vehicles := by
  suffices h : ∀ (l : List (List TrajectoryPoint)) (a : ℚ),
      l.foldl (fun acc traj => if traj.isEmpty then acc else max acc (trajectoryLastTime traj)) a
        = ((l.filter fun traj => !traj.isEmpty).map trajectoryLastTime).foldl max a by
    exact h vehicles 0
  intro l
  induction l with
  | nil => intro a; rfl
  | cons tr l ih =>
    intro a
    cases tr with
    | nil => simpa using ih a
    | cons x xs => simpa using ih (max a (trajectoryLastTime (x :: xs)))

/-- Claim C3 (amended): one animation tick advances `current_time` by
`0.033`; the wrap threshold is the maximum final-waypoint arrival time
(pause durations ignored) over vehicles with a non-empty trajectory when
that maximum is positive, and otherwise the previous `max_time` (initially
10.0); `current_time` wraps to 0 exactly when it exceeds that threshold.
The 1.0 floor of the claim exists only in the slider-normalisation
denominator `slider_denominator`, not in the wrap threshold. -/
theorem c3_amended (vehicles : List (List TrajectoryPoint)) (ct mt : ℚ) :
    update_animation vehicles ct mt =
      (if (if 0 < animatedMaxTime vehicles then animatedMaxTime vehicles else mt) < ct + 33 / 1000
          then 0 else ct + 33 / 1000,
        if 0 < animatedMaxTime vehicles then animatedMaxTime vehicles else mt) ∧
    slider_denominator (update_animation vehicles ct mt).2
      = max (if 0 < animatedMaxTime vehicles then animatedMaxTime vehicles else mt) 1 := by
  constructor
  · rw [update_animation, maxTrajectoryTime_eq_animatedMaxTime]
  · rw [update_animation, slider_denominator, maxTrajectoryTime_eq_animatedMaxTime]

/-- Claim C4: the export loop emits exactly `floor(fps * duration)` frames,
frame `i` is rendered at time `i / fps`, the render times are strictly
increasing, the trajectory overlay is off on every emitted frame, and at
`fps = 30`, `duration = 2` exactly 60 frames are emitted. -/
theorem c4_theorem (fps : ℕ) (duration : ℚ)
    (hfps1 : 15 ≤ fps) (hfps2 : fps ≤ 60) (hdur : 0 ≤ duration) :
    ((export_frames fps duration).length : ℤ) = ⌊(fps : ℚ) * duration⌋ ∧
    List.Pairwise (fun a b : ℚ × Bool => a.1 < b.1) (export_frames fps duration) ∧
    (∀ fr ∈ export_frames fps duration, fr.2 = false) ∧
    (∀ i, ∀ h : i < (export_frames fps duration).length,
      (export_frames fps duration).get ⟨i, h⟩ = ((i : ℚ) / (fps : ℚ), false)) ∧
    (export_frames 30 2).length = 60 := by
  have hfpsQ : (0 : ℚ) < (fps : ℚ) := by
    have : 0 < fps := lt_of_lt_of_le (by norm_num) hfps1
    exact_mod_cast this
  refine ⟨?_, ?_, ?_, ?_, ?_⟩
  · simp only [export_frames, List.length_map, List.length_range, export_frame_count]
    rw [Int.toNat_of_nonneg (Int.floor_nonneg.mpr (mul_nonneg hdur (Nat.cast_nonneg fps)))]
    rw [mul_comm]
  · simp only [export_frames]
    refine List.Pairwise.map _ ?_ (List.pairwise_lt_range _)
    intro a b hab
    exact (div_lt_div_iff_of_pos_right hfpsQ).mpr (by exact_mod_cast hab)
  · intro fr hfr
    simp only [export_frames, List.mem_map] at hfr
    obtain ⟨i, -, rfl⟩ := hfr
    rfl
  · intro i h
    simp only [export_frames, List.get_eq_getElem, List.getElem_map, List.getElem_range]
  · simp only [export_frames, List.length_map, List.length_range]
    rw [export_frame_count]
    norm_num
    decide

/-- Claim C4 (witness): the frame-count statement of `c4_theorem` at
`fps = 30`, `duration = 2`. -/
theorem c4_witness :
    ((export_frames 30 2).length : ℤ) = ⌊(30 : ℚ) * 2⌋ ∧ (export_frames 30 2).length = 60 :=
  ⟨(c4_theorem 30 2 (by norm_num) (by norm_num) (by norm_num)).1,
   (c4_theorem 30 2 (by norm_num) (by norm_num) (by norm_num)).2.2.2.2⟩

/-- Claim C5 helper: with a stream that never fails, the export frame loop
reports completion. -/
theorem exportWriteLoop_none_completes (fps : ℕ) :
    ∀ (n i : ℕ) (v : ViewState), (exportWriteLoop none fps i n v).1 = true := by
  intro n
  induction n with
  | zero => intro i v; rfl
  | succ n ih => intro i v; simpa [exportWriteLoop] using ih (i + 1) _

/-- Claim C5 helper: if the stream fails at frame `k`, the loop aborts with
`current_time` equal to the failing frame's render time `k / fps` and the
overlay flag untouched since entering the loop. -/
theorem exportWriteLoop_fails (fps k : ℕ) :
    ∀ (n i : ℕ) (v : ViewState), i ≤ k → k < i + n →
      exportWriteLoop (some k) fps i n v = (false, ⟨(k : ℚ) / (fps : ℚ), v.show_trajectory⟩) := by
  intro n
  induction n with
  | zero => intro i v h1 h2; omega
  | succ n ih =>
    intro i v h1 h2
    by_cases hik : k = i
    · subst hik
      simp [exportWriteLoop]
    · have hlt : i < k := lt_of_le_of_ne h1 (Ne.symm hik)
      have hne : ¬ (some k = some i) := by simpa using hik
      simpa [exportWriteLoop, hne] using ih (i + 1) _ hlt (by omega)

/-- Claim C5 (counterexample): starting from view state
`current_time = 3.5`, overlay shown, an export of 60 frames at 30 fps whose
stream fails at frame 5 aborts with `current_time = 5/30` and the overlay
flag cleared — the pre-export view state is not restored. -/
theorem c5_counterexample :
    export_video (some 5) 30 60 ⟨7 / 2, true⟩ = (false, ⟨5 / 30, false⟩) ∧
    (⟨5 / 30, false⟩ : ViewState) ≠ ⟨7 / 2, true⟩ := by
  constructor
  · norm_num [export_video, exportWriteLoop]
  · simp [ViewState.mk.injEq]

/-- Claim C5 (amended): the entity collections are untouched by export, and
the failure does propagate to the caller; but when the stream fails at
frame `k < total_frames` the method aborts with `show_trajectory` still
cleared and `current_time` left at the failing frame's time `k / fps` — the
pre-export view state is not restored.  Restoration happens only on
success, and then `current_time` is set to 0 while the overlay flag returns
to its pre-export value. -/
theorem c5_amended (v : ViewState) (fps total_frames k : ℕ) (hk : k < total_frames) :
    export_video (some k) fps total_frames v = (false, ⟨(k : ℚ) / (fps : ℚ), false⟩) ∧
    export_video none fps total_frames v = (true, ⟨0, v.show_trajectory⟩) := by
  constructor
  · have h := exportWriteLoop_fails fps k total_frames 0
      { v with show_trajectory := false } (Nat.zero_le k) (by omega)
    simp [export_video, h]
  · have h := exportWriteLoop_none_completes fps total_frames 0
      { v with show_trajectory := false }
    rw [export_video]
    set p := exportWriteLoop none fps 0 total_frames { v with show_trajectory := false } with hp
    have hpair : p = (true, p.2) := Prod.ext h rfl
    rw [hpair]

/-- Claim C5 (witness): the amended export theorem at
`v = (current_time 2, overlay shown)`, 30 fps, 60 frames, failure at
frame 5. -/
theorem c5_witness :
    export_video (some 5) 30 60 ⟨2, true⟩ = (false, ⟨(5 : ℚ) / 30, false⟩) ∧
    export_video none 30 60 ⟨2, true⟩ = (true, ⟨0, true⟩) := by
  have h := c5_amended ⟨2, true⟩ 30 60 5 (by norm_num)
  refine ⟨?_, h.2⟩
  simpa using h.1

/-- Claim C6 (code bug): the serializer round trip is not loss-free.  For a
store holding one vehicle, `load_project` applied to the document written
by `save_project` yields a store with no vehicles at all, because the
entity-restoring half of `load_project` is an unimplemented TODO that only
clears the collections and reads back `max_time`. -/
theorem c6_code_bug :
    WithAssets.load_project c6Store (WithAssets.save_project c6Store) ≠ c6Store ∧
    (WithAssets.load_project c6Store (WithAssets.save_project c6Store)).vehicles = [] := by
  constructor
  · simp [WithAssets.load_project, WithAssets.save_project, c6Store, WithAssets.Store.mk.injEq]
  · rfl

/-- Claim C7: a locked road cannot be moved or removed — the remove
handler returns the road list unchanged with the locked error, the
mouse-release handler leaves the road's position unchanged with the locked
error, and the locked error is distinct from the success outcomes. -/
theorem c7_theorem (roads : List Road) (r : Road) (nx ny : ℚ) (confirmed : Bool)
    (hlock : r.locked = true) :
    remove_road roads (some r) confirmed = (roads, RoadOpResult.lockedError) ∧
    road_mouse_release r nx ny = (r, RoadOpResult.lockedError) ∧
    RoadOpResult.lockedError ≠ RoadOpResult.removed ∧
    RoadOpResult.lockedError ≠ RoadOpResult.moved := by
  refine ⟨?_, ?_, by decide, by decide⟩
  · simp [remove_road, hlock]
  · simp [road_mouse_release, hlock]

/-- Claim C7 (witness): the locked-road theorem applied to a concrete
locked road at position `(1, 2)`. -/
theorem c7_witness :
    remove_road [⟨0, 1, 2, true⟩] (some ⟨0, 1, 2, true⟩) true
        = ([⟨0, 1, 2, true⟩], RoadOpResult.lockedError) ∧
    road_mouse_release ⟨0, 1, 2, true⟩ 9 9 = (⟨0, 1, 2, true⟩, RoadOpResult.lockedError) := by
  have h := c7_theorem [⟨0, 1, 2, true⟩] ⟨0, 1, 2, true⟩ 9 9 true rfl
  exact ⟨h.1, h.2.1⟩

/-- Claim C8 helper: every id recorded as created during a run of editor
operations is strictly below the final id counter, and the counter never
decreases. -/
theorem createdIds_bounded (ops : List EditorOp) :
    ∀ s : VehicleIds,
      (∀ j ∈ createdIds s ops, j < (runOps s ops).next_vehicle_id) ∧
      s.next_vehicle_id ≤ (runOps s ops).next_vehicle_id := by
  induction ops with
  | nil =>
    intro s
    exact ⟨by simp [createdIds, runOps], le_refl _⟩
  | cons op ops ih =>
    intro s
    cases op with
    | add =>
      have h1 := (ih (applyOp s .add)).1
      have h2 := (ih (applyOp s .add)).2
      have hnext : (applyOp s .add).next_vehicle_id = s.next_vehicle_id + 1 := rfl
      have hrun : runOps s (.add :: ops) = runOps (applyOp s .add) ops := rfl
      have hstep : s.next_vehicle_id + 1 ≤ (runOps (applyOp s .add) ops).next_vehicle_id := by
        rw [← hnext]
        exact h2
      constructor
      · intro j hj
        rw [hrun]
        have hj2 : j = s.next_vehicle_id ∨ j ∈ createdIds (applyOp s .add) ops := by
          simpa [createdIds] using hj
        rcases hj2 with rfl | hj2
        · omega
        · exact h1 j hj2
      · rw [hrun]
        omega
    | remove i =>
      have h := ih (applyOp s (.remove i))
      constructor
      · intro j hj
        simp only [createdIds] at hj
        simpa [runOps] using h.1 j hj
      · simpa [runOps] using h.2

/-- Claim C8 (counterexample): the cited v3 variant reuses ids.  Its
`add_vehicle_to_scene` assigns `vehicle_id = len(self.vehicles)`, so the
sequence add, add, remove-id-0, add produces the states `[0]`, `[0, 1]`,
`[1]` and finally `[1, 1]`: the last add assigns id 1, which the second add
had already created — the claim's "never equals the id of any entity
previously created" fails for `vehicle_editor_v3.py`. -/
theorem c8_counterexample :
    V3.add_vehicle_to_scene [] = [0] ∧
    V3.add_vehicle_to_scene (V3.add_vehicle_to_scene []) = [0, 1] ∧
    V3.remove_vehicle (V3.add_vehicle_to_scene (V3.add_vehicle_to_scene [])) 0 = [1] ∧
    V3.add_vehicle_to_scene
        (V3.remove_vehicle (V3.add_vehicle_to_scene (V3.add_vehicle_to_scene [])) 0)
      = [1, 1] ∧
    1 ∈ V3.add_vehicle_to_scene (V3.add_vehicle_to_scene []) := by
  refine ⟨rfl, rfl, rfl, rfl, by decide⟩

/-- Claim C8 (amended): in the fixed variant, after any sequence of add and
remove operations starting from the editor's initial state, the id that the
next add operation assigns (the current `next_vehicle_id`, appended to the
vehicle list) differs from every id ever created during the sequence — the
counter-based variant never reuses ids, even after removals.  The v3
variant assigns `len(self.vehicles)` instead and does reuse ids after a
removal. -/
theorem c8_theorem (ops : List EditorOp) :
    (add_vehicle_to_scene (runOps initialEditor ops)).vehicles =
        (runOps initialEditor ops).vehicles ++ [(runOps initialEditor ops).next_vehicle_id] ∧
    (runOps initialEditor ops).next_vehicle_id ∉ createdIds initialEditor ops := by
  refine ⟨rfl, fun hmem => ?_⟩
  exact absurd ((createdIds_bounded ops initialEditor).1 _ hmem) (lt_irrefl _)

/-- Claim C9: two 2000 by 420 roads at `(200, 0)` and `(200, 420)` give a
fitted scene rectangle anchored at `(100, -100)` with width
`2000 + 2 * 100` and height `840 + 2 * 100` (margin 100 on all sides). -/
theorem c9_theorem :
    fit_view_to_roads [⟨200, 0, 2000, 420⟩, ⟨200, 420, 2000, 420⟩]
      = some (100, -100, 2000 + 2 * 100, 840 + 2 * 100) := by
  norm_num [fit_view_to_roads]

/-- Claim C10: on an empty waypoint list both interpolator variants return
the fixed default position `(100, 100)` for every query time, and that
default differs from `(0, 0)`. -/
theorem c10_theorem (t : ℚ) :
    Fixed.get_position_at_time [] t = (100, 100) ∧
    V3.get_position_at_time [] t = (100, 100) ∧
    ((100 : ℚ), (100 : ℚ)) ≠ ((0 : ℚ), (0 : ℚ)) := by
  refine ⟨rfl, rfl, ?_⟩
  norm_num [Prod.ext_iff]

end TrafficScenario
